import Mathlib

/-!
# Verification of the ZkUbi public-signal encoder (`nextjs/lib/pcd.ts`)

Shallow embedding of the canonical signal encoder of `src/nextjs/lib/pcd.ts`:
the SHA-256 based message hash (`generateSnarkMessageHash`, via the `js-sha256`
library), the fixed-capacity allowlist encoding (`snarkInputForValidEventIds`),
the public-signal vector builder (`publicSignalsFromClaim`), and the
frontend verification checks (`isETHBerlinPublicKey`, `verifyProofFrontend`).

Machine integers are modelled as `Nat` with explicit `% 2 ^ 32` where 32-bit
overflow matters; JavaScript `throw` is modelled with `Except`; JavaScript
`undefined` is modelled with `Option`, and the `x || y` idiom on optional
strings keeps its truthiness semantics (the empty string is falsy).
-/

namespace ZkUbi

/-! ## SHA-256 (model of the `js-sha256` library's `sha256` function)

`js-sha256` UTF-8-encodes the input string and computes standard FIPS 180-4
SHA-256 over the resulting bytes.  All 32-bit words are `Nat`s kept below
`2 ^ 32` by explicit reductions. -/

/-- UTF-8 encoding of a single character (code point), as bytes. -/
def utf8EncodeCharBytes (c : Char) : List Nat :=
  let n := c.toNat
  if n < 0x80 then [n]
  else if n < 0x800 then
    [0xC0 + n / 64, 0x80 + n % 64]
  else if n < 0x10000 then
    [0xE0 + n / 4096, 0x80 + n / 64 % 64, 0x80 + n % 64]
  else
    [0xF0 + n / 262144, 0x80 + n / 4096 % 64, 0x80 + n / 64 % 64, 0x80 + n % 64]

/-- The UTF-8 bytes of a string (what `js-sha256` hashes). -/
def utf8Bytes (s : String) : List Nat :=
  s.data.flatMap utf8EncodeCharBytes

/-- Right rotation of a 32-bit word, in arithmetic form. -/
def rotr32 (n x : Nat) : Nat :=
  (x / 2 ^ n + x % 2 ^ n * 2 ^ (32 - n)) % 2 ^ 32

/-- Bitwise complement of a 32-bit word. -/
def bnot32 (x : Nat) : Nat := x ^^^ (2 ^ 32 - 1)

/-- SHA-256 `Ch` function. -/
def shaCh (x y z : Nat) : Nat := (x &&& y) ^^^ (bnot32 x &&& z)

/-- SHA-256 `Maj` function. -/
def shaMaj (x y z : Nat) : Nat := (x &&& y) ^^^ (x &&& z) ^^^ (y &&& z)

/-- SHA-256 big Σ₀. -/
def shaS0 (x : Nat) : Nat := rotr32 2 x ^^^ rotr32 13 x ^^^ rotr32 22 x

/-- SHA-256 big Σ₁. -/
def shaS1 (x : Nat) : Nat := rotr32 6 x ^^^ rotr32 11 x ^^^ rotr32 25 x

/-- SHA-256 small σ₀. -/
def shaL0 (x : Nat) : Nat := rotr32 7 x ^^^ rotr32 18 x ^^^ x / 2 ^ 3

/-- SHA-256 small σ₁. -/
def shaL1 (x : Nat) : Nat := rotr32 17 x ^^^ rotr32 19 x ^^^ x / 2 ^ 10

/-- The eight 32-bit words of a SHA-256 hash state. -/
structure Hash8 where
  a : Nat
  b : Nat
  c : Nat
  d : Nat
  e : Nat
  f : Nat
  g : Nat
  h : Nat
deriving Repr, DecidableEq

/-- SHA-256 initial hash value. -/
def shaInit : Hash8 :=
  ⟨1779033703, 3144134277, 1013904242, 2773480762,
   1359893119, 2600822924, 528734635, 1541459225⟩

/-- The 64 SHA-256 round constants. -/
def shaK : List Nat :=
  [1116352408, 1899447441, 3049323471, 3921009573, 961987163,
   1508970993, 2453635748, 2870763221, 3624381080, 310598401,
   607225278, 1426881987, 1925078388, 2162078206, 2614888103,
   3248222580, 3835390401, 4022224774, 264347078, 604807628,
   770255983, 1249150122, 1555081692, 1996064986, 2554220882,
   2821834349, 2952996808, 3210313671, 3336571891, 3584528711,
   113926993, 338241895, 666307205, 773529912, 1294757372,
   1396182291, 1695183700, 1986661051, 2177026350, 2456956037,
   2730485921, 2820302411, 3259730800, 3345764771, 3516065817,
   3600352804, 4094571909, 275423344, 430227734, 506948616,
   659060556, 883997877, 958139571, 1322822218, 1537002063,
   1747873779, 1955562222, 2024104815, 2227730452, 2361852424,
   2428436474, 2756734187, 3204031479, 3329325298]

/-- A big-endian word from a list of bytes. -/
def beWord (bs : List Nat) : Nat := bs.foldl (fun a b => a * 256 + b) 0

/-- The sixteen big-endian 32-bit message words of a 64-byte block. -/
def blockWords (blk : List Nat) : List Nat :=
  (List.range 16).map fun i =>
    beWord [blk.getD (4 * i) 0, blk.getD (4 * i + 1) 0,
            blk.getD (4 * i + 2) 0, blk.getD (4 * i + 3) 0]

/-- Extend the message schedule `n` more steps.  `ws` holds the schedule so
far, newest word first. -/
def extendSchedule : Nat → List Nat → List Nat
  | 0, ws => ws
  | n + 1, ws =>
    let next :=
      (shaL1 (ws.getD 1 0) + ws.getD 6 0 + shaL0 (ws.getD 14 0) + ws.getD 15 0)
        % 2 ^ 32
    extendSchedule n (next :: ws)

/-- The full 64-word message schedule of a block. -/
def schedule (blk : List Nat) : List Nat :=
  (extendSchedule 48 (blockWords blk).reverse).reverse

/-- One SHA-256 compression round, taking the round constant and message
word. -/
def shaRound (s : Hash8) (k w : Nat) : Hash8 :=
  let t1 := (s.h + shaS1 s.e + shaCh s.e s.f s.g + k + w) % 2 ^ 32
  let t2 := (shaS0 s.a + shaMaj s.a s.b s.c) % 2 ^ 32
  ⟨(t1 + t2) % 2 ^ 32, s.a, s.b, s.c, (s.d + t1) % 2 ^ 32, s.e, s.f, s.g⟩

/-- SHA-256 compression of one 64-byte block into the hash state. -/
def shaCompress (H : Hash8) (blk : List Nat) : Hash8 :=
  let s := (shaK.zip (schedule blk)).foldl (fun s kw => shaRound s kw.1 kw.2) H
  ⟨(H.a + s.a) % 2 ^ 32, (H.b + s.b) % 2 ^ 32, (H.c + s.c) % 2 ^ 32,
   (H.d + s.d) % 2 ^ 32, (H.e + s.e) % 2 ^ 32, (H.f + s.f) % 2 ^ 32,
   (H.g + s.g) % 2 ^ 32, (H.h + s.h) % 2 ^ 32⟩

/-- SHA-256 padding: append `0x80`, zeros to 56 mod 64, then the bit length
as a big-endian 64-bit integer. -/
def shaPad (msg : List Nat) : List Nat :=
  let l := msg.length
  let n := 8 * l
  msg ++ [0x80] ++ List.replicate ((119 - l % 64) % 64) 0 ++
    [n / 2 ^ 56 % 256, n / 2 ^ 48 % 256, n / 2 ^ 40 % 256, n / 2 ^ 32 % 256,
     n / 2 ^ 24 % 256, n / 2 ^ 16 % 256, n / 2 ^ 8 % 256, n % 256]

/-- Split a byte list into 64-byte blocks, with structural fuel (any fuel
at least the number of blocks gives the same result). -/
def toBlocksFuel : Nat → List Nat → List (List Nat)
  | 0, _ => []
  | _ + 1, [] => []
  | fuel + 1, bs => bs.take 64 :: toBlocksFuel fuel (bs.drop 64)

/-- Split a byte list into 64-byte blocks. -/
def toBlocks (bs : List Nat) : List (List Nat) := toBlocksFuel bs.length bs

/-- The final SHA-256 hash state of a byte message. -/
def sha256State (msg : List Nat) : Hash8 :=
  (toBlocks (shaPad msg)).foldl shaCompress shaInit

/-- The four big-endian bytes of a 32-bit word. -/
def wordBytes (w : Nat) : List Nat :=
  [w / 2 ^ 24 % 256, w / 2 ^ 16 % 256, w / 2 ^ 8 % 256, w % 256]

/-- The 32 digest bytes of a SHA-256 hash state, in emission order. -/
def digestBytes (H : Hash8) : List Nat :=
  wordBytes H.a ++ wordBytes H.b ++ wordBytes H.c ++ wordBytes H.d ++
  wordBytes H.e ++ wordBytes H.f ++ wordBytes H.g ++ wordBytes H.h

/-- The SHA-256 digest of a byte message, read as a big-endian integer (this
is `BigInt('0x' + sha256(msg))` in the source). -/
def sha256Nat (msg : List Nat) : Nat := beWord (digestBytes (sha256State msg))

/-- `generateSnarkMessageHash` (pcd.ts lines 32–36): SHA-256 the string,
read the hex digest as an integer, shift right by 8 bits. -/
def generateSnarkMessageHash (signal : String) : Nat :=
  sha256Nat (utf8Bytes signal) / 2 ^ 8

/-! ## Constants and `@pcd/util` helpers -/

/-- `BABY_JUB_NEGATIVE_ONE` (pcd.ts lines 23–25): the encoding of −1 as the
Baby Jubjub field element p − 1. -/
def BABY_JUB_NEGATIVE_ONE : Nat :=
  21888242871839275222246405745257275088548364400416034343698204186575808495616

/-- `VALID_EVENT_IDS_MAX_LEN` (pcd.ts line 30). -/
def VALID_EVENT_IDS_MAX_LEN : Nat := 20

/-- `STATIC_TICKET_PCD_NULLIFIER` (pcd.ts lines 38–40). -/
def STATIC_TICKET_PCD_NULLIFIER : Nat :=
  generateSnarkMessageHash "dummy-nullifier-for-eddsa-event-ticket-pcds"

/-- The value of a hexadecimal digit character (model of JavaScript hex
parsing; defined as 0 on non-hex characters — the library functions below
are only ever applied to well-formed hex/UUID strings, on which JavaScript's
`BigInt` would otherwise throw). -/
def hexDigitVal (c : Char) : Nat :=
  if '0' ≤ c ∧ c ≤ '9' then c.toNat - '0'.toNat
  else if 'a' ≤ c ∧ c ≤ 'f' then c.toNat - 'a'.toNat + 10
  else if 'A' ≤ c ∧ c ≤ 'F' then c.toNat - 'A'.toNat + 10
  else 0

/-- A hex string read as a big-endian integer. -/
def hexToNat (s : String) : Nat :=
  s.data.foldl (fun a c => a * 16 + hexDigitVal c) 0

/-- Model of `@pcd/util`'s `uuidToBigInt`: a UUID is 16 bytes; the value is
the big-endian integer of its 32 hex digits (dashes removed). -/
def uuidToBigInt (s : String) : Nat :=
  hexToNat ⟨s.data.filter (· ≠ '-')⟩

/-- Model of `@pcd/util`'s `hexToBigInt`: parse a hex string, with or
without a leading `0x`. -/
def hexToBigInt (s : String) : Nat :=
  match s.data with
  | '0' :: 'x' :: rest => hexToNat ⟨rest⟩
  | _ => hexToNat s

/-- Model of `@pcd/util`'s `booleanToBigInt`: `false → 0`, `true → 1`. -/
def booleanToBigInt (b : Bool) : Nat := if b then 1 else 0

/-- Model of `@pcd/util`'s `numberToBigInt` on the non-negative integers it
receives here. -/
def numberToBigInt (n : Nat) : Nat := n

/-- JavaScript's `x || d` on an optional string: `undefined` and the empty
string (both falsy) fall back to the default. -/
def jsOrElse (o : Option String) (d : String) : String :=
  match o with
  | none => d
  | some s => if s = "" then d else s

/-! ## The claim data model (`ZKEdDSAEventTicketPCDClaim`)

Each scalar field of the partial ticket is independently optional
(`undefined` when undisclosed), modelled with `Option`.  Timestamps and the
ticket category are JavaScript numbers (non-negative integers here);
identifier fields are UUID strings; the semaphore id, nullifier hash,
external nullifier and watermark are field-element decimal strings. -/

structure PartialTicket where
  ticketId : Option String
  eventId : Option String
  productId : Option String
  timestampConsumed : Option Nat
  timestampSigned : Option Nat
  attendeeSemaphoreId : Option String
  isConsumed : Option Bool
  isRevoked : Option Bool
  ticketCategory : Option Nat
  attendeeEmail : Option String
  attendeeName : Option String
deriving Repr, DecidableEq

structure ZKClaim where
  partialTicket : PartialTicket
  signer : String × String
  validEventIds : Option (List String)
  nullifierHash : Option String
  externalNullifier : Option String
  watermark : String
deriving Repr, DecidableEq

/-- The `BABY_JUB_NEGATIVE_ONE.toString()` sentinel string. -/
def negOneStr : String := toString BABY_JUB_NEGATIVE_ONE

/-! ## The encoder (`snarkInputForValidEventIds`, `publicSignalsFromClaim`) -/

/-- The 20-slot array built by the two loops of `snarkInputForValidEventIds`
(pcd.ts lines 53–61): the encoded ids in input order, then
`BABY_JUB_NEGATIVE_ONE` in every remaining slot. -/
def snarkAllowlist (v : List String) : List String :=
  v.map (fun validId => toString (uuidToBigInt validId)) ++
    List.replicate (VALID_EVENT_IDS_MAX_LEN - v.length) negOneStr

/-- `snarkInputForValidEventIds` (pcd.ts lines 42–63): an absent allowlist
becomes the empty list; more than `VALID_EVENT_IDS_MAX_LEN` entries throws;
otherwise the padded 20-slot array is returned. -/
def snarkInputForValidEventIds (validEventIds : Option (List String)) :
    Except String (List String) :=
  let v := validEventIds.getD []
  if VALID_EVENT_IDS_MAX_LEN < v.length then
    .error ("validEventIds for a ZKEdDSAEventTicketPCD can have up to 100 entries.  "
      ++ toString v.length ++ " given.")
  else
    .ok (snarkAllowlist v)

/-- `publicSignalsFromClaim` (pcd.ts lines 65–136): the ordered public
signal vector of a claim, as decimal strings.  The `Except` propagates the
throw of `snarkInputForValidEventIds`. -/
def publicSignalsFromClaim (claim : ZKClaim) : Except String (List String) :=
  let t := claim.partialTicket
  let negOne := negOneStr
  match snarkInputForValidEventIds claim.validEventIds with
  | .error e => .error e
  | .ok allow =>
    .ok ([
      (match t.ticketId with
        | none => negOne | some v => toString (uuidToBigInt v)),
      (match t.eventId with
        | none => negOne | some v => toString (uuidToBigInt v)),
      (match t.productId with
        | none => negOne | some v => toString (uuidToBigInt v)),
      (match t.timestampConsumed with
        | none => negOne | some v => toString v),
      (match t.timestampSigned with
        | none => negOne | some v => toString v),
      jsOrElse t.attendeeSemaphoreId negOne,
      (match t.isConsumed with
        | none => negOne | some v => toString (booleanToBigInt v)),
      (match t.isRevoked with
        | none => negOne | some v => toString (booleanToBigInt v)),
      (match t.ticketCategory with
        | none => negOne | some v => toString (numberToBigInt v)),
      (match t.attendeeEmail with
        | none => negOne | some v => toString (generateSnarkMessageHash v)),
      (match t.attendeeName with
        | none => negOne | some v => toString (generateSnarkMessageHash v)),
      negOne,
      jsOrElse claim.nullifierHash negOne,
      toString (hexToBigInt claim.signer.1),
      toString (hexToBigInt claim.signer.2)]
    ++ allow
    ++ [
      (match claim.validEventIds with | some _ => "1" | none => "0"),
      jsOrElse claim.externalNullifier (toString STATIC_TICKET_PCD_NULLIFIER),
      claim.watermark])

/-! ## Frontend verification (`isETHBerlinPublicKey`, `verifyProofFrontend`) -/

/-- `isETHBerlinPublicKey` (pcd.ts lines 154–161). -/
def isETHBerlinPublicKey (signer : String × String) : Bool :=
  signer.1 = "1ebfb986fbac5113f8e2c72286fe9362f8e7d211dbc68227a468d7b919e75003" &&
  signer.2 = "10ec38f11baacad5535525bbe8e343074a483c051aa1616266f3b1df3fb7d204"

/-- `verifyProofFrontend` (pcd.ts lines 196–218), given the result of the
external `ZKEdDSAEventTicketPCDPackage.verify` call as `verifies` and the
deserialized claim.  Each failed check `return`s with no value
(JavaScript `undefined`, modelled `none`); success returns `true`. -/
def verifyProofFrontend (verifies : Bool) (claim : ZKClaim) (address : String) :
    Option Bool :=
  if !verifies then none
  else if !isETHBerlinPublicKey claim.signer then none
  else if claim.watermark ≠ toString (hexToBigInt address) then none
  else some true

/-! ## Helper lemmas -/

/-- Folding bytes below 256 into a big-endian accumulator stays below
`(a + 1) * 256 ^ length`. -/
theorem foldl_byte_bound (bs : List Nat) (a : Nat) (hb : ∀ b ∈ bs, b < 256) :
    List.foldl (fun a b => a * 256 + b) a bs < (a + 1) * 256 ^ bs.length := by
  induction bs generalizing a with
  | nil => simp
  | cons b bs ih =>
    have h1 : b < 256 := hb b (List.mem_cons_self b bs)
    have h2 : ∀ x ∈ bs, x < 256 := fun x hx => hb x (List.mem_cons_of_mem _ hx)
    have h3 := ih (a * 256 + b) h2
    have h4 : (a * 256 + b + 1) * 256 ^ bs.length ≤ (a + 1) * 256 ^ (b :: bs).length := by
      simp only [List.length_cons, pow_succ]
      calc (a * 256 + b + 1) * 256 ^ bs.length
          ≤ ((a + 1) * 256) * 256 ^ bs.length :=
            Nat.mul_le_mul_right _ (by omega)
        _ = (a + 1) * (256 ^ bs.length * 256) := by ring
    calc List.foldl (fun a b => a * 256 + b) a (b :: bs)
        = List.foldl (fun a b => a * 256 + b) (a * 256 + b) bs := rfl
      _ < (a * 256 + b + 1) * 256 ^ bs.length := h3
      _ ≤ (a + 1) * 256 ^ (b :: bs).length := h4

/-- A big-endian word of bytes below 256 is below `256 ^ length`. -/
theorem beWord_lt (bs : List Nat) (hb : ∀ b ∈ bs, b < 256) :
    beWord bs < 256 ^ bs.length := by
  simpa [beWord] using foldl_byte_bound bs 0 hb

/-- The four bytes of a word are bytes. -/
theorem wordBytes_lt (w : Nat) : ∀ b ∈ wordBytes w, b < 256 := by
  intro b hb
  simp only [wordBytes, List.mem_cons, List.not_mem_nil, or_false] at hb
  rcases hb with rfl | rfl | rfl | rfl <;> exact Nat.mod_lt _ (by norm_num)

/-- The 32 digest bytes are bytes. -/
theorem digestBytes_lt (H : Hash8) : ∀ b ∈ digestBytes H, b < 256 := by
  intro b hb
  simp only [digestBytes, List.mem_append] at hb
  rcases hb with ((((((h | h) | h) | h) | h) | h) | h) | h <;>
    exact wordBytes_lt _ _ h

/-- The digest always has 32 bytes. -/
theorem digestBytes_length (H : Hash8) : (digestBytes H).length = 32 := by
  simp [digestBytes, wordBytes]

/-- A SHA-256 digest, read as an integer, is below `2 ^ 256`. -/
theorem sha256Nat_lt (msg : List Nat) : sha256Nat msg < 2 ^ 256 := by
  have h := beWord_lt (digestBytes (sha256State msg)) (digestBytes_lt _)
  rw [digestBytes_length] at h
  calc sha256Nat msg < 256 ^ 32 := h
    _ = 2 ^ 256 := by norm_num

/-- The fifteen signals pushed before the allowlist (pcd.ts lines 74–121). -/
def headSignals (claim : ZKClaim) : List String :=
  [(match claim.partialTicket.ticketId with
     | none => negOneStr | some v => toString (uuidToBigInt v)),
   (match claim.partialTicket.eventId with
     | none => negOneStr | some v => toString (uuidToBigInt v)),
   (match claim.partialTicket.productId with
     | none => negOneStr | some v => toString (uuidToBigInt v)),
   (match claim.partialTicket.timestampConsumed with
     | none => negOneStr | some v => toString v),
   (match claim.partialTicket.timestampSigned with
     | none => negOneStr | some v => toString v),
   jsOrElse claim.partialTicket.attendeeSemaphoreId negOneStr,
   (match claim.partialTicket.isConsumed with
     | none => negOneStr | some v => toString (booleanToBigInt v)),
   (match claim.partialTicket.isRevoked with
     | none => negOneStr | some v => toString (booleanToBigInt v)),
   (match claim.partialTicket.ticketCategory with
     | none => negOneStr | some v => toString (numberToBigInt v)),
   (match claim.partialTicket.attendeeEmail with
     | none => negOneStr | some v => toString (generateSnarkMessageHash v)),
   (match claim.partialTicket.attendeeName with
     | none => negOneStr | some v => toString (generateSnarkMessageHash v)),
   negOneStr,
   jsOrElse claim.nullifierHash negOneStr,
   toString (hexToBigInt claim.signer.1),
   toString (hexToBigInt claim.signer.2)]

/-- The three signals pushed after the allowlist (pcd.ts lines 126–133). -/
def tailSignals (claim : ZKClaim) : List String :=
  [(match claim.validEventIds with | some _ => "1" | none => "0"),
   jsOrElse claim.externalNullifier (toString STATIC_TICKET_PCD_NULLIFIER),
   claim.watermark]

/-- Within the allowlist capacity, the encoder succeeds and the vector splits
as head signals, allowlist slots, tail signals. -/
theorem publicSignalsFromClaim_ok (c : ZKClaim)
    (h : (c.validEventIds.getD []).length ≤ VALID_EVENT_IDS_MAX_LEN) :
    publicSignalsFromClaim c =
      .ok (headSignals c ++ snarkAllowlist (c.validEventIds.getD []) ++ tailSignals c) := by
  have h' : ¬ VALID_EVENT_IDS_MAX_LEN < (c.validEventIds.getD []).length :=
    Nat.not_lt.mpr h
  simp only [publicSignalsFromClaim, snarkInputForValidEventIds, h', if_false,
    headSignals, tailSignals, List.append_assoc, List.cons_append, List.nil_append]

/-- Within capacity, the allowlist always fills its 20 slots. -/
theorem snarkAllowlist_length (v : List String) (h : v.length ≤ VALID_EVENT_IDS_MAX_LEN) :
    (snarkAllowlist v).length = 20 := by
  simp only [snarkAllowlist, List.length_append, List.length_map, List.length_replicate,
    VALID_EVENT_IDS_MAX_LEN] at *
  omega

/-! ## Claim theorems -/

/-- C1: within the allowlist capacity, `publicSignalsFromClaim` returns
exactly 38 decimal-string signals in the positional order [ticketId, eventId,
productId, timestampConsumed, timestampSigned, attendeeSemaphoreId,
isConsumed, isRevoked, ticketCategory, attendeeEmailHash, attendeeNameHash,
reservedPlaceholder, nullifierHash, signerX, signerY, allowlist[0..19],
checkValidEventIds, externalNullifier, watermark], with the reserved
placeholder slot 11 always `NEGATIVE_ONE`. -/
theorem claim_C1 (c : ZKClaim)
    (h : (c.validEventIds.getD []).length ≤ VALID_EVENT_IDS_MAX_LEN) :
    ∃ sigs, publicSignalsFromClaim c = Except.ok sigs ∧
      sigs.length = 38 ∧
      sigs.getD 0 "" = (match c.partialTicket.ticketId with
        | none => negOneStr | some v => toString (uuidToBigInt v)) ∧
      sigs.getD 1 "" = (match c.partialTicket.eventId with
        | none => negOneStr | some v => toString (uuidToBigInt v)) ∧
      sigs.getD 2 "" = (match c.partialTicket.productId with
        | none => negOneStr | some v => toString (uuidToBigInt v)) ∧
      sigs.getD 3 "" = (match c.partialTicket.timestampConsumed with
        | none => negOneStr | some v => toString v) ∧
      sigs.getD 4 "" = (match c.partialTicket.timestampSigned with
        | none => negOneStr | some v => toString v) ∧
      sigs.getD 5 "" = jsOrElse c.partialTicket.attendeeSemaphoreId negOneStr ∧
      sigs.getD 6 "" = (match c.partialTicket.isConsumed with
        | none => negOneStr | some v => toString (booleanToBigInt v)) ∧
      sigs.getD 7 "" = (match c.partialTicket.isRevoked with
        | none => negOneStr | some v => toString (booleanToBigInt v)) ∧
      sigs.getD 8 "" = (match c.partialTicket.ticketCategory with
        | none => negOneStr | some v => toString (numberToBigInt v)) ∧
      sigs.getD 9 "" = (match c.partialTicket.attendeeEmail with
        | none => negOneStr | some v => toString (generateSnarkMessageHash v)) ∧
      sigs.getD 10 "" = (match c.partialTicket.attendeeName with
        | none => negOneStr | some v => toString (generateSnarkMessageHash v)) ∧
      sigs.getD 11 "" = negOneStr ∧
      sigs.getD 12 "" = jsOrElse c.nullifierHash negOneStr ∧
      sigs.getD 13 "" = toString (hexToBigInt c.signer.1) ∧
      sigs.getD 14 "" = toString (hexToBigInt c.signer.2) ∧
      (∀ i, i < 20 → sigs.getD (15 + i) "" =
        (snarkAllowlist (c.validEventIds.getD [])).getD i "") ∧
      sigs.getD 35 "" = (match c.validEventIds with | some _ => "1" | none => "0") ∧
      sigs.getD 36 "" = jsOrElse c.externalNullifier (toString STATIC_TICKET_PCD_NULLIFIER) ∧
      sigs.getD 37 "" = c.watermark := by
  have hA : (headSignals c).length = 15 := by simp [headSignals]
  have hS : (snarkAllowlist (c.validEventIds.getD [])).length = 20 :=
    snarkAllowlist_length _ h
  have hT : (tailSignals c).length = 3 := by simp [tailSignals]
  refine ⟨_, publicSignalsFromClaim_ok c h, ?_, rfl, rfl, rfl, rfl, rfl, rfl, rfl,
    rfl, rfl, rfl, rfl, rfl, rfl, rfl, rfl, ?_, ?_, ?_, ?_⟩
  · simp only [List.length_append, hA, hS, hT]
  · intro i hi
    rw [List.append_assoc, List.getD_append_right _ _ _ _ (by omega), hA,
      Nat.add_sub_cancel_left]
    exact List.getD_append _ _ _ _ (by omega)
  · rw [List.append_assoc, List.getD_append_right _ _ _ _ (by omega), hA,
      List.getD_append_right _ _ _ _ (by omega), hS]
    rfl
  · rw [List.append_assoc, List.getD_append_right _ _ _ _ (by omega), hA,
      List.getD_append_right _ _ _ _ (by omega), hS]
    rfl
  · rw [List.append_assoc, List.getD_append_right _ _ _ _ (by omega), hA,
      List.getD_append_right _ _ _ _ (by omega), hS]
    rfl

/-- C2: within capacity, the allowlist encoder returns exactly 20 entries:
the encoded inputs in order, then `NEGATIVE_ONE` padding; an absent
allowlist gives 20 copies of `NEGATIVE_ONE`. -/
theorem claim_C2 (validEventIds : Option (List String))
    (h : (validEventIds.getD []).length ≤ VALID_EVENT_IDS_MAX_LEN) :
    ∃ out, snarkInputForValidEventIds validEventIds = Except.ok out ∧
      out.length = 20 ∧
      out.take (validEventIds.getD []).length =
        (validEventIds.getD []).map (fun s => toString (uuidToBigInt s)) ∧
      out.drop (validEventIds.getD []).length =
        List.replicate (20 - (validEventIds.getD []).length) negOneStr ∧
      (validEventIds = none → out = List.replicate 20 negOneStr) := by
  have h' : ¬ VALID_EVENT_IDS_MAX_LEN < (validEventIds.getD []).length :=
    Nat.not_lt.mpr h
  refine ⟨snarkAllowlist (validEventIds.getD []), ?_,
    snarkAllowlist_length _ h, ?_, ?_, ?_⟩
  · simp [snarkInputForValidEventIds, h']
  · unfold snarkAllowlist
    rw [show (validEventIds.getD []).length =
      ((validEventIds.getD []).map (fun s => toString (uuidToBigInt s))).length
      from (List.length_map _ _).symm]
    exact List.take_left _ _
  · unfold snarkAllowlist
    rw [show (validEventIds.getD []).length =
      ((validEventIds.getD []).map (fun s => toString (uuidToBigInt s))).length
      from (List.length_map _ _).symm]
    rw [List.drop_left]
    rfl
  · rintro rfl
    simp [snarkAllowlist, VALID_EVENT_IDS_MAX_LEN]

/-- C3: the allowlist encoder — and with it the whole signal encoder —
throws exactly when the supplied `validEventIds` has more than 20 entries;
for any other input both return normally. -/
theorem claim_C3 (validEventIds : Option (List String)) (c : ZKClaim) :
    ((∃ e, snarkInputForValidEventIds validEventIds = Except.error e) ↔
      VALID_EVENT_IDS_MAX_LEN < (validEventIds.getD []).length) ∧
    ((∃ out, snarkInputForValidEventIds validEventIds = Except.ok out) ↔
      (validEventIds.getD []).length ≤ VALID_EVENT_IDS_MAX_LEN) ∧
    ((∃ e, publicSignalsFromClaim c = Except.error e) ↔
      VALID_EVENT_IDS_MAX_LEN < (c.validEventIds.getD []).length) ∧
    ((∃ sigs, publicSignalsFromClaim c = Except.ok sigs) ↔
      (c.validEventIds.getD []).length ≤ VALID_EVENT_IDS_MAX_LEN) := by
  refine ⟨?_, ?_, ?_, ?_⟩
  · by_cases hc : VALID_EVENT_IDS_MAX_LEN < (validEventIds.getD []).length <;>
      simp [snarkInputForValidEventIds, hc]
  · by_cases hc : VALID_EVENT_IDS_MAX_LEN < (validEventIds.getD []).length <;>
      simp [snarkInputForValidEventIds, hc]
    omega
  · by_cases hc : VALID_EVENT_IDS_MAX_LEN < (c.validEventIds.getD []).length <;>
      simp [publicSignalsFromClaim, snarkInputForValidEventIds, hc]
  · by_cases hc : VALID_EVENT_IDS_MAX_LEN < (c.validEventIds.getD []).length <;>
      simp [publicSignalsFromClaim, snarkInputForValidEventIds, hc]
    omega

/-- C5: `generateSnarkMessageHash` is the big-endian integer of the SHA-256
digest of the message, shifted right by 8 bits; it is deterministic and its
output always lies in `[0, 2 ^ 248)`, a valid field element. -/
theorem claim_C5 (s : String) :
    generateSnarkMessageHash s = sha256Nat (utf8Bytes s) / 2 ^ 8 ∧
    generateSnarkMessageHash s = generateSnarkMessageHash s ∧
    generateSnarkMessageHash s < 2 ^ 248 := by
  refine ⟨rfl, rfl, ?_⟩
  have h := sha256Nat_lt (utf8Bytes s)
  exact Nat.div_lt_of_lt_mul (by calc sha256Nat (utf8Bytes s) < 2 ^ 256 := h
    _ = 2 ^ 8 * 2 ^ 248 := by norm_num)

/-- C4: with every optional field absent, the signal vector is
`NEGATIVE_ONE` everywhere except the two signer slots, the
`checkValidEventIds` slot (`"0"`), the `externalNullifier` slot (the default
constant) and the watermark slot (passed through). -/
theorem claim_C4 (sx sy wm : String) :
    publicSignalsFromClaim
      ⟨⟨none, none, none, none, none, none, none, none, none, none, none⟩,
        (sx, sy), none, none, none, wm⟩ =
      Except.ok (List.replicate 13 negOneStr ++
        [toString (hexToBigInt sx), toString (hexToBigInt sy)] ++
        List.replicate 20 negOneStr ++
        ["0", toString STATIC_TICKET_PCD_NULLIFIER, wm]) := by
  rfl

/-- C6: `attendeeSemaphoreId`, `nullifierHash` and `watermark` are passed
through verbatim when present (as non-empty field-element strings);
`attendeeSemaphoreId` and `nullifierHash` fall back to `NEGATIVE_ONE` when
absent; the watermark slot is never defaulted. -/
theorem claim_C6 (c : ZKClaim)
    (h : (c.validEventIds.getD []).length ≤ VALID_EVENT_IDS_MAX_LEN) :
    ∃ sigs, publicSignalsFromClaim c = Except.ok sigs ∧
      (∀ s, c.partialTicket.attendeeSemaphoreId = some s → s ≠ "" →
        sigs.getD 5 "" = s) ∧
      (c.partialTicket.attendeeSemaphoreId = none → sigs.getD 5 "" = negOneStr) ∧
      (∀ s, c.nullifierHash = some s → s ≠ "" → sigs.getD 12 "" = s) ∧
      (c.nullifierHash = none → sigs.getD 12 "" = negOneStr) ∧
      sigs.getD 37 "" = c.watermark := by
  have hA : (headSignals c).length = 15 := by simp [headSignals]
  have hS : (snarkAllowlist (c.validEventIds.getD [])).length = 20 :=
    snarkAllowlist_length _ h
  refine ⟨_, publicSignalsFromClaim_ok c h, ?_, ?_, ?_, ?_, ?_⟩
  · intro s hs hne
    show jsOrElse c.partialTicket.attendeeSemaphoreId negOneStr = s
    rw [hs]
    simp [jsOrElse, hne]
  · intro hs
    show jsOrElse c.partialTicket.attendeeSemaphoreId negOneStr = negOneStr
    rw [hs]
    rfl
  · intro s hs hne
    show jsOrElse c.nullifierHash negOneStr = s
    rw [hs]
    simp [jsOrElse, hne]
  · intro hs
    show jsOrElse c.nullifierHash negOneStr = negOneStr
    rw [hs]
    rfl
  · rw [List.append_assoc, List.getD_append_right _ _ _ _ (by omega), hA,
      List.getD_append_right _ _ _ _ (by omega), hS]
    rfl

/-- C7: the `checkValidEventIds` slot is `"1"` exactly when `validEventIds`
was provided — also when it is the empty list — and `"0"` when absent. -/
theorem claim_C7 (c : ZKClaim)
    (h : (c.validEventIds.getD []).length ≤ VALID_EVENT_IDS_MAX_LEN) :
    ∃ sigs, publicSignalsFromClaim c = Except.ok sigs ∧
      sigs.getD 35 "" = (if c.validEventIds.isSome then "1" else "0") ∧
      (c.validEventIds = some [] → sigs.getD 35 "" = "1") := by
  have hA : (headSignals c).length = 15 := by simp [headSignals]
  have hS : (snarkAllowlist (c.validEventIds.getD [])).length = 20 :=
    snarkAllowlist_length _ h
  have hflag : (headSignals c ++ snarkAllowlist (c.validEventIds.getD []) ++
      tailSignals c).getD 35 "" =
      (match c.validEventIds with | some _ => "1" | none => "0") := by
    rw [List.append_assoc, List.getD_append_right _ _ _ _ (by omega), hA,
      List.getD_append_right _ _ _ _ (by omega), hS]
    rfl
  refine ⟨_, publicSignalsFromClaim_ok c h, ?_, ?_⟩
  · rw [hflag]
    cases c.validEventIds <;> rfl
  · intro hv
    rw [hflag, hv]

/-- C8: the `externalNullifier` slot is the claim's external nullifier when
present (as a non-empty field-element string), and otherwise the fixed
default, which is `generateSnarkMessageHash` of the fixed domain-separation
string `'dummy-nullifier-for-eddsa-event-ticket-pcds'`. -/
theorem claim_C8 (c : ZKClaim)
    (h : (c.validEventIds.getD []).length ≤ VALID_EVENT_IDS_MAX_LEN) :
    STATIC_TICKET_PCD_NULLIFIER =
      generateSnarkMessageHash "dummy-nullifier-for-eddsa-event-ticket-pcds" ∧
    ∃ sigs, publicSignalsFromClaim c = Except.ok sigs ∧
      (∀ s, c.externalNullifier = some s → s ≠ "" → sigs.getD 36 "" = s) ∧
      (c.externalNullifier = none →
        sigs.getD 36 "" = toString STATIC_TICKET_PCD_NULLIFIER) := by
  have hA : (headSignals c).length = 15 := by simp [headSignals]
  have hS : (snarkAllowlist (c.validEventIds.getD [])).length = 20 :=
    snarkAllowlist_length _ h
  have hnul : (headSignals c ++ snarkAllowlist (c.validEventIds.getD []) ++
      tailSignals c).getD 36 "" =
      jsOrElse c.externalNullifier (toString STATIC_TICKET_PCD_NULLIFIER) := by
    rw [List.append_assoc, List.getD_append_right _ _ _ _ (by omega), hA,
      List.getD_append_right _ _ _ _ (by omega), hS]
    rfl
  refine ⟨rfl, _, publicSignalsFromClaim_ok c h, ?_, ?_⟩
  · intro s hs hne
    rw [hnul, hs]
    simp [jsOrElse, hne]
  · intro hs
    rw [hnul, hs]
    rfl

/-- C9: the boolean ticket fields encode `false` to `"0"`, `true` to `"1"`,
and `NEGATIVE_ONE` when absent; in particular `isConsumed = true`,
`isRevoked = false` with all else absent yields `"1"` and `"0"` in those
slots and sentinel/default values everywhere else. -/
theorem claim_C9 (c : ZKClaim)
    (h : (c.validEventIds.getD []).length ≤ VALID_EVENT_IDS_MAX_LEN) :
    (∃ sigs, publicSignalsFromClaim c = Except.ok sigs ∧
      sigs.getD 6 "" = (match c.partialTicket.isConsumed with
        | none => negOneStr | some b => if b then "1" else "0") ∧
      sigs.getD 7 "" = (match c.partialTicket.isRevoked with
        | none => negOneStr | some b => if b then "1" else "0")) ∧
    publicSignalsFromClaim
      ⟨⟨none, none, none, none, none, none, some true, some false, none, none,
        none⟩, ("aa", "bb"), none, none, none, "7"⟩ =
      Except.ok (List.replicate 6 negOneStr ++ ["1", "0"] ++
        List.replicate 5 negOneStr ++
        [toString (hexToBigInt "aa"), toString (hexToBigInt "bb")] ++
        List.replicate 20 negOneStr ++
        ["0", toString STATIC_TICKET_PCD_NULLIFIER, "7"]) := by
  refine ⟨⟨_, publicSignalsFromClaim_ok c h, ?_, ?_⟩, by rfl⟩
  · show (match c.partialTicket.isConsumed with
      | none => negOneStr | some v => toString (booleanToBigInt v)) = _
    cases c.partialTicket.isConsumed with
    | none => rfl
    | some b => cases b <;> rfl
  · show (match c.partialTicket.isRevoked with
      | none => negOneStr | some v => toString (booleanToBigInt v)) = _
    cases c.partialTicket.isRevoked with
    | none => rfl
    | some b => cases b <;> rfl

/-- C10: `verifyProofFrontend` returns `true` exactly when the external
verification succeeds, the signer equals the ETHBerlin public key in both
halves, and the watermark equals the decimal string of the address read as a
hex integer; any failed check yields `undefined` (`none`), never `false` and
never a throw. -/
theorem claim_C10 (verifies : Bool) (c : ZKClaim) (address : String) :
    (verifyProofFrontend verifies c address = some true ↔
      (verifies = true ∧ isETHBerlinPublicKey c.signer = true ∧
        c.watermark = toString (hexToBigInt address))) ∧
    (isETHBerlinPublicKey c.signer = true ↔
      c.signer =
        ("1ebfb986fbac5113f8e2c72286fe9362f8e7d211dbc68227a468d7b919e75003",
         "10ec38f11baacad5535525bbe8e343074a483c051aa1616266f3b1df3fb7d204")) ∧
    (verifyProofFrontend verifies c address = some true ∨
      verifyProofFrontend verifies c address = none) := by
  refine ⟨?_, ?_, ?_⟩
  · cases verifies <;>
      by_cases hb : isETHBerlinPublicKey c.signer <;>
      by_cases hw : c.watermark = toString (hexToBigInt address) <;>
      simp [verifyProofFrontend, hb, hw]
  · simp [isETHBerlinPublicKey, Bool.and_eq_true, decide_eq_true_eq, Prod.ext_iff]
  · cases verifies <;>
      by_cases hb : isETHBerlinPublicKey c.signer <;>
      by_cases hw : c.watermark = toString (hexToBigInt address) <;>
      simp [verifyProofFrontend, hb, hw]

/-! ## Concrete instances -/

/-- A concrete claim with one allowlist entry and most optional fields
present. -/
def exampleClaim : ZKClaim :=
  ⟨⟨some "53edb3e7-6733-41e0-a9be-488877c5c572",
    some "53edb3e7-6733-41e0-a9be-488877c5c572",
    some "aaaabbbb-cccc-dddd-eeee-ffff00001111",
    some 5, some 6, some "9", some true, some false, some 2, none, none⟩,
   ("1ebf", "10ec"), some ["53edb3e7-6733-41e0-a9be-488877c5c572"],
   some "3", some "7", "42"⟩

/-- A concrete claim signed with the ETHBerlin public key, watermarked for
address `0x01`. -/
def ethClaim : ZKClaim :=
  ⟨⟨none, none, none, none, none, none, none, none, none, none, none⟩,
   ("1ebfb986fbac5113f8e2c72286fe9362f8e7d211dbc68227a468d7b919e75003",
    "10ec38f11baacad5535525bbe8e343074a483c051aa1616266f3b1df3fb7d204"),
   none, none, none, "1"⟩

theorem claim_C1_witness :
    (exampleClaim.validEventIds.getD []).length ≤ VALID_EVENT_IDS_MAX_LEN ∧
    ∃ sigs, publicSignalsFromClaim exampleClaim = Except.ok sigs ∧
      sigs.length = 38 := by
  refine ⟨by decide, ?_⟩
  obtain ⟨sigs, h1, h2, -⟩ := claim_C1 exampleClaim (by decide)
  exact ⟨sigs, h1, h2⟩

theorem claim_C2_witness :
    ((some ["53edb3e7-6733-41e0-a9be-488877c5c572"] : Option (List String)).getD
      []).length ≤ VALID_EVENT_IDS_MAX_LEN ∧
    ∃ out, snarkInputForValidEventIds
        (some ["53edb3e7-6733-41e0-a9be-488877c5c572"]) = Except.ok out ∧
      out.length = 20 := by
  refine ⟨by decide, ?_⟩
  obtain ⟨out, h1, h2, -⟩ :=
    claim_C2 (some ["53edb3e7-6733-41e0-a9be-488877c5c572"]) (by decide)
  exact ⟨out, h1, h2⟩

theorem claim_C3_witness :
    (∃ e, snarkInputForValidEventIds (some (List.replicate 21 "x")) =
      Except.error e) ∧
    ∃ out, snarkInputForValidEventIds (some (List.replicate 20 "x")) =
      Except.ok out := by
  refine ⟨(claim_C3 (some (List.replicate 21 "x")) exampleClaim).1.mpr ?_,
    (claim_C3 (some (List.replicate 20 "x")) exampleClaim).2.1.mpr ?_⟩ <;> decide

theorem claim_C4_witness :
    publicSignalsFromClaim
      ⟨⟨none, none, none, none, none, none, none, none, none, none, none⟩,
        ("aa", "bb"), none, none, none, "5"⟩ =
      Except.ok (List.replicate 13 negOneStr ++
        [toString (hexToBigInt "aa"), toString (hexToBigInt "bb")] ++
        List.replicate 20 negOneStr ++
        ["0", toString STATIC_TICKET_PCD_NULLIFIER, "5"]) :=
  claim_C4 "aa" "bb" "5"

theorem claim_C5_witness :
    generateSnarkMessageHash "a" = generateSnarkMessageHash "a" ∧
    generateSnarkMessageHash "a" < 2 ^ 248 :=
  ⟨(claim_C5 "a").2.1, (claim_C5 "a").2.2⟩

theorem claim_C6_witness :
    (exampleClaim.validEventIds.getD []).length ≤ VALID_EVENT_IDS_MAX_LEN ∧
    ∃ sigs, publicSignalsFromClaim exampleClaim = Except.ok sigs ∧
      sigs.getD 5 "" = "9" ∧ sigs.getD 37 "" = "42" := by
  refine ⟨by decide, ?_⟩
  obtain ⟨sigs, h1, h2, -, -, -, h6⟩ := claim_C6 exampleClaim (by decide)
  exact ⟨sigs, h1, h2 "9" rfl (by decide), h6⟩

theorem claim_C7_witness :
    (exampleClaim.validEventIds.getD []).length ≤ VALID_EVENT_IDS_MAX_LEN ∧
    ∃ sigs, publicSignalsFromClaim exampleClaim = Except.ok sigs ∧
      sigs.getD 35 "" = "1" := by
  refine ⟨by decide, ?_⟩
  obtain ⟨sigs, h1, h2, -⟩ := claim_C7 exampleClaim (by decide)
  exact ⟨sigs, h1, by simpa [exampleClaim] using h2⟩

theorem claim_C8_witness :
    (exampleClaim.validEventIds.getD []).length ≤ VALID_EVENT_IDS_MAX_LEN ∧
    ∃ sigs, publicSignalsFromClaim exampleClaim = Except.ok sigs ∧
      sigs.getD 36 "" = "7" := by
  refine ⟨by decide, ?_⟩
  obtain ⟨-, sigs, h1, h2, -⟩ := claim_C8 exampleClaim (by decide)
  exact ⟨sigs, h1, h2 "7" rfl (by decide)⟩

theorem claim_C9_witness :
    publicSignalsFromClaim
      ⟨⟨none, none, none, none, none, none, some true, some false, none, none,
        none⟩, ("aa", "bb"), none, none, none, "7"⟩ =
      Except.ok (List.replicate 6 negOneStr ++ ["1", "0"] ++
        List.replicate 5 negOneStr ++
        [toString (hexToBigInt "aa"), toString (hexToBigInt "bb")] ++
        List.replicate 20 negOneStr ++
        ["0", toString STATIC_TICKET_PCD_NULLIFIER, "7"]) :=
  (claim_C9 exampleClaim (by decide)).2

theorem claim_C10_witness :
    verifyProofFrontend true ethClaim "0x01" = some true ∧
    verifyProofFrontend false ethClaim "0x01" = none := by
  constructor
  · exact (claim_C10 true ethClaim "0x01").1.mpr ⟨rfl, by decide, by decide⟩
  · rcases (claim_C10 false ethClaim "0x01").2.2 with h | h
    · have := (claim_C10 false ethClaim "0x01").1.mp h
      simp at this
    · exact h

end ZkUbi
